import Mathlib

/-!
Verification development for the swappy-labels inbox pipeline.

The definitions below are a shallow embedding of the TypeScript sources:
the multi-backend Gmail processing route (classifyEmail with the Claude
tier, the Gemini tier and the static fallback, processSingleEmail, the
batch loop, extractEmailBody, ensureLabelExists), the single-backend
route variant (classifyEmail with the bounded retry loop, maxResults 2),
and the auth endpoints (callback cookie setting, auth-status check).

External collaborators (the Gmail HTTP API, the two model backends, the
base64 decoder and the html-to-text library) are modelled as inputs:
backend replies are parameters, the decoder and the html converter are
function parameters, the Gmail label store is explicit state, and
fallible network calls are Except values.
-/

/-- Modelled from the spec: the category enumeration exported by the
missing module app/utils/constants (validCategories). The spec (section
3) fixes the closed, ordered set, and the classification prompt embedded
in the source enumerates the same sixteen names. -/
def validCategories : List String :=
  ["Important", "Urgent", "Work", "Personal", "Finance", "Sales",
   "Promotions", "Newsletter", "Social", "Shopping", "Entertainment",
   "Health", "Education", "Automated", "Spamming", "Other"]

/-- Modelled from the spec: the MAX_EMAILS constant exported by the
missing module app/utils/constants; the spec fixes the batch maximum at
10 messages. -/
def MAX_EMAILS : Nat := 10

/-- Decides whether a character is whitespace for the JS whitespace
class used by the trim calls and the whitespace regex of the source. -/
def isWsChar (c : Char) : Bool :=
  c = ' ' || c = '\t' || c = '\n' || c = '\r'

/-- Embedding of the JS String trim method: drop whitespace from both
ends. Defined by structural recursion so concrete inputs evaluate. -/
def jsTrim (s : String) : String :=
  String.mk (((s.data.dropWhile isWsChar).reverse.dropWhile isWsChar).reverse)

/-- Outcome record of the multi-backend classifier (interface
ClassificationResult in the source). Costs are embedded as rationals. -/
structure ClassificationResult where
  category : String
  model : String
  tokens : Nat
  cost : ℚ
deriving DecidableEq, Repr

/-- Observable outcome of the Claude call: the parsed category field of
the JSON reply (absent when the key is missing) plus the reported usage
counters. A transport or JSON-parse exception is the `none` case at the
use site. -/
structure ClaudeReply where
  categoryField : Option String
  inputTokens : Nat
  outputTokens : Nat
deriving DecidableEq, Repr

/-- Observable outcome of the Gemini call: the optional reply text and
the optional reported total token count. A transport exception is the
`none` case at the use site. -/
structure GeminiReply where
  text : Option String
  totalTokenCount : Option Nat
deriving DecidableEq, Repr

/-- Static final fallback of the multi-backend classifier. -/
def fallbackResult : ClassificationResult :=
  { category := "Other", model := "fallback", tokens := 0, cost := 0 }

/-- Gemini tier of the multi-backend classifyEmail: trim the reply text
(empty when absent), validate membership in validCategories, price the
reported total tokens at the flat 1.25 rate; otherwise fall through to
the static fallback. -/
def classifyGemini : Option GeminiReply → ClassificationResult
  | some r =>
    let category := (r.text.map jsTrim).getD ""
    if category ≠ "" ∧ category ∈ validCategories then
      { category := category, model := "gemini",
        tokens := r.totalTokenCount.getD 0,
        cost := (r.totalTokenCount.getD 0 : ℚ) * (5 / 4 : ℚ) }
    else fallbackResult
  | none => fallbackResult

/-- Multi-backend classifyEmail (the variant with usage accounting):
first the Claude tier, whose parsed category must be truthy and a member
of validCategories, priced at 0.8 per million input tokens plus 4 per
million output tokens; otherwise the Gemini tier; otherwise the static
fallback. -/
def classifyEmail (claude : Option ClaudeReply) (gemini : Option GeminiReply) :
    ClassificationResult :=
  match claude with
  | some r =>
    match r.categoryField with
    | some c =>
      if c ≠ "" ∧ c ∈ validCategories then
        { category := c, model := "anthropic",
          tokens := r.inputTokens + r.outputTokens,
          cost := ((r.inputTokens : ℚ) * (8 / 10 : ℚ)) / 1000000 +
                  ((r.outputTokens : ℚ) * 4) / 1000000 }
      else classifyGemini gemini
    | none => classifyGemini gemini
  | none => classifyGemini gemini

/-- Predicate: the Claude tier yields no valid category (transport or
parse failure, missing category field, empty string, or a string outside
the category set). -/
def claudeExhausts : Option ClaudeReply → Prop
  | none => True
  | some r =>
    match r.categoryField with
    | none => True
    | some c => c = "" ∨ c ∉ validCategories

/-- Predicate: the Gemini tier yields no valid category (transport
failure, absent or empty trimmed text, or a string outside the category
set). -/
def geminiExhausts : Option GeminiReply → Prop
  | none => True
  | some r =>
    (r.text.map jsTrim).getD "" = "" ∨
    (r.text.map jsTrim).getD "" ∉ validCategories

/-- Outcome of one Gemini attempt in the single-backend route: either a
transport exception or a reply with optional text. -/
inductive GeminiAttempt where
  | failure : GeminiAttempt
  | reply : Option String → GeminiAttempt
deriving DecidableEq, Repr

/-- Category string extracted from one attempt, as in the source: the
trimmed reply text, defaulted to the empty string. -/
def attemptCategory : GeminiAttempt → String
  | .failure => ""
  | .reply t => (t.map jsTrim).getD ""

/-- Decides whether one attempt returns a valid category: a reply whose
trimmed text is truthy and a member of validCategories. -/
def attemptValid (a : GeminiAttempt) : Bool :=
  match a with
  | .failure => false
  | .reply t =>
    let c := (t.map jsTrim).getD ""
    (c != "") && (validCategories.contains c)

/-- Decides whether one attempt is a transport failure (the catch branch
of the retry loop, the only branch that sleeps before retrying). -/
def attemptIsFailure : GeminiAttempt → Bool
  | .failure => true
  | .reply _ => false

/-- Trace of the single-backend classifyEmail: the returned category,
how many backend calls were made, and for each continuation to a further
attempt whether a delay was awaited before it. -/
structure SingleTrace where
  category : String
  calls : Nat
  delays : List Bool
deriving DecidableEq, Repr

/-- Retry loop of the single-backend classifyEmail, fuelled. The loop
runs while retries is at most maxRetries = 2; a valid reply returns
immediately; an invalid reply increments retries and continues with no
delay; a transport failure increments retries and awaits the fixed
1000 ms delay before the next attempt; once retries exceeds 2 the static
default "Personal" is returned. -/
def singleLoop (os : Nat → GeminiAttempt) :
    Nat → Nat → Nat → List Bool → SingleTrace
  | 0, _, calls, delays => ⟨"Personal", calls, delays.reverse⟩
  | fuel + 1, retries, calls, delays =>
    if retries ≤ 2 then
      match os calls with
      | .reply t =>
        let c := ((t.map jsTrim).getD "")
        if (c != "") && (validCategories.contains c) then
          ⟨c, calls + 1, delays.reverse⟩
        else if retries + 1 > 2 then
          ⟨"Personal", calls + 1, delays.reverse⟩
        else
          singleLoop os fuel (retries + 1) (calls + 1) (false :: delays)
      | .failure =>
        if retries + 1 > 2 then
          ⟨"Personal", calls + 1, delays.reverse⟩
        else
          singleLoop os fuel (retries + 1) (calls + 1) (true :: delays)
    else ⟨"Personal", calls, delays.reverse⟩

/-- Single-backend classifyEmail of the api/gmail route: the retry loop
started with retries = 0, enough fuel for the 3 possible calls, given
the stream of attempt outcomes. -/
def classifyEmailSingle (os : Nat → GeminiAttempt) : SingleTrace :=
  singleLoop os 3 0 0 []

/-- One MIME header of the fetched message: optional name, optional
value, as in the Gmail API schema. -/
structure Header where
  name : Option String
  value : Option String
deriving DecidableEq, Repr

/-- Body slot of one MIME part: the optional base64 data string
(interface GmailPayload, field body.data). -/
structure MsgBody where
  data : Option String
deriving DecidableEq, Repr

/-- Tree of MIME parts as the source reads it: optional headers list,
optional media type, optional body, optional list of nested parts. The
source interface omits the headers field, which the route reads from the
same runtime object before the cast. -/
inductive GmailPayload where
  | mk : Option (List Header) → Option String → Option MsgBody →
         Option (List GmailPayload) → GmailPayload

/-- Headers of a payload node. -/
def GmailPayload.headers : GmailPayload → Option (List Header)
  | .mk h _ _ _ => h

/-- Media type of a payload node. -/
def GmailPayload.mimeType : GmailPayload → Option String
  | .mk _ m _ _ => m

/-- Body slot of a payload node. -/
def GmailPayload.body : GmailPayload → Option MsgBody
  | .mk _ _ b _ => b

/-- Child parts of a payload node. -/
def GmailPayload.parts : GmailPayload → Option (List GmailPayload)
  | .mk _ _ _ p => p

/-- Optional chaining part.body?.data of the source. -/
def partData (p : GmailPayload) : Option String :=
  p.body.bind MsgBody.data

/-- Decides the truthiness test part.body?.data of the source: the data
string exists and is not empty (the empty string is falsy). -/
def hasTruthyData (p : GmailPayload) : Bool :=
  match partData p with
  | some d => d != ""
  | none => false

/-- Decides whether a part has media type exactly text/plain. -/
def isPlainPart (p : GmailPayload) : Bool :=
  p.mimeType == some "text/plain"

/-- Decides whether a part has media type exactly text/html. -/
def isHtmlPart (p : GmailPayload) : Bool :=
  p.mimeType == some "text/html"

/-- Guard of the first scan loop: text/plain media type with truthy
body data. -/
def plainWithData (p : GmailPayload) : Bool :=
  isPlainPart p && hasTruthyData p

/-- Guard of the second scan loop: text/html media type with truthy
body data. -/
def htmlWithData (p : GmailPayload) : Bool :=
  isHtmlPart p && hasTruthyData p

/-- Removes the second of any two adjacent spaces, repeatedly, so runs
of spaces become a single space. -/
def squeezeSpaces : List Char → List Char
  | [] => []
  | [c] => [c]
  | a :: b :: rest =>
    if a = ' ' && b = ' ' then squeezeSpaces (b :: rest)
    else a :: squeezeSpaces (b :: rest)

/-- Replacement of every whitespace run by one space followed by a trim,
embedding the replace and trim calls applied after the html-to-text
conversion in the source. -/
def collapseTrim (s : String) : String :=
  (String.mk (squeezeSpaces (s.data.map fun c =>
    if isWsChar c then ' ' else c))).trim

/-- Single-part branch of extractEmailBody: when the payload has truthy
body data, a text/plain media type returns the decoded data, a text/html
media type returns the converted, collapsed and trimmed text, anything
else returns the empty string. The base64 decoder and the html-to-text
library are function parameters. -/
def extractSinglePart (dec htmlLib : String → String) (pl : GmailPayload) :
    String :=
  match partData pl with
  | some d =>
    if d != "" then
      if pl.mimeType == some "text/plain" then dec d
      else if pl.mimeType == some "text/html" then
        collapseTrim (htmlLib (dec d))
      else ""
    else ""
  | none => ""

/-- Embedding of extractEmailBody: an absent payload yields the empty
string; with a parts list, the first part with text/plain media type and
truthy data is decoded and returned verbatim, else the first text/html
part with truthy data is decoded, converted and collapsed; in either
remaining case the single-part branch runs on the payload itself. -/
def extractEmailBody (dec htmlLib : String → String) :
    Option GmailPayload → String
  | none => ""
  | some pl =>
    match pl.parts with
    | some ps =>
      match ps.find? plainWithData with
      | some p => dec ((partData p).getD "")
      | none =>
        match ps.find? htmlWithData with
        | some p => collapseTrim (htmlLib (dec ((partData p).getD "")))
        | none => extractSinglePart dec htmlLib pl
    | none => extractSinglePart dec htmlLib pl

/-- Decides whether the single-part branch of extractEmailBody would
produce text: truthy body data together with a text/plain or text/html
media type. -/
def singlePartMatches (pl : GmailPayload) : Bool :=
  match partData pl with
  | some d =>
    (d != "") &&
      ((pl.mimeType == some "text/plain") ||
       (pl.mimeType == some "text/html"))
  | none => false

/-- Decides that a payload offers no matching part or body: no child
part passes either scan guard and the single-part branch does not match. -/
def hasNoTextContent (pl : GmailPayload) : Bool :=
  ((pl.parts.getD []).all fun p => !(plainWithData p) && !(htmlWithData p)) &&
    !(singlePartMatches pl)

/-- Per-message result record of the multi-backend route (interface
EmailData). The optional fields model keys the source object literals
may omit. -/
structure EmailData where
  id : String
  subject : String
  category : String
  labeled : Bool
  model : Option String
  tokens : Option Nat
  cost : Option ℚ
  error : Option String
deriving DecidableEq, Repr

/-- Environment of one message pipeline: the fetch call (the optional
payload of the message, or a thrown error message), the two backend
replies for the classification, the ensureLabelExists call keyed by
label name, and the modify call. -/
structure MessageEnv where
  fetch : Except String (Option GmailPayload)
  claude : Option ClaudeReply
  gemini : Option GeminiReply
  ensureLabel : String → Except String String
  modify : Except String Unit

/-- Lookup of one header value as the source does: find the header with
the given name, take its value, and fall back to the default when the
headers, the header or its value are absent or the value is empty. -/
def headerValue (hs : Option (List Header)) (n d : String) : String :=
  match hs with
  | none => d
  | some l =>
    match l.find? fun h => h.name == some n with
    | none => d
    | some h =>
      match h.value with
      | some v => if v != "" then v else d
      | none => d

/-- Happy path of processSingleEmail: fetch the message, read subject
and sender from the payload headers with their defaults, extract the
body, classify, ensure the label for the category, apply the label and
remove UNREAD, and build the success record with model, token and cost
fields set. Any step returning an error short-circuits. -/
def runPipeline (dec htmlLib : String → String) (env : MessageEnv)
    (msgId : String) : Except String EmailData := do
  let payload ← env.fetch
  let hs := payload.bind GmailPayload.headers
  let subject := headerValue hs "Subject" "No Subject"
  let _sender := headerValue hs "From" "Unknown Sender"
  let _body := extractEmailBody dec htmlLib payload
  let cr := classifyEmail env.claude env.gemini
  let _labelId ← env.ensureLabel cr.category
  let _u ← env.modify
  pure { id := msgId, subject := subject, category := cr.category,
         labeled := true, model := some cr.model,
         tokens := some cr.tokens, cost := some cr.cost, error := none }

/-- Failure record built by the catch branch of processSingleEmail. -/
def failedResult (msgId e : String) : EmailData :=
  { id := msgId, subject := "Error processing email", category := "Error",
    labeled := false, model := none, tokens := none, cost := none,
    error := some e }

/-- Embedding of processSingleEmail: run the pipeline and convert any
thrown error into the failure record carrying the error message. -/
def processSingleEmail (dec htmlLib : String → String) (env : MessageEnv)
    (msgId : String) : EmailData :=
  match runPipeline dec htmlLib env msgId with
  | .ok d => d
  | .error e => failedResult msgId e

/-- Batch loop of the multi-backend POST route: each listed message is
processed in order through processSingleEmail, whose result is pushed;
the per-message catch means no message can abort the loop. -/
def processBatch (dec htmlLib : String → String)
    (envs : String → MessageEnv) (ids : List String) : List EmailData :=
  ids.map fun i => processSingleEmail dec htmlLib (envs i) i

/-- Predicate: the pipeline of one message throws with message e at one
of its fallible steps (fetch, ensureLabelExists, or modify). -/
def pipelineRaises (env : MessageEnv) (e : String) : Prop :=
  env.fetch = .error e ∨
  (∃ pl, env.fetch = .ok pl ∧
    env.ensureLabel (classifyEmail env.claude env.gemini).category =
      .error e) ∨
  (∃ pl lid, env.fetch = .ok pl ∧
    env.ensureLabel (classifyEmail env.claude env.gemini).category =
      .ok lid ∧
    env.modify = .error e)

/-- Listing step of the multi-backend route: the Gmail list call with
maxResults MAX_EMAILS returns at most that many matching identifiers,
in order. -/
def listUnreadMulti (unread : List String) : List String :=
  unread.take MAX_EMAILS

/-- Listing step of the single-backend api/gmail route: the Gmail list
call there passes maxResults 2. -/
def listUnreadSingle (unread : List String) : List String :=
  unread.take 2

/-- One Gmail label as the source reads it: optional identifier and
optional name. -/
structure GmailLabel where
  id : Option String
  name : Option String
deriving DecidableEq, Repr

/-- State of the label store of the account: the existing labels and a
counter from which the provider mints fresh identifiers. -/
structure LabelState where
  labels : List GmailLabel
  nextId : Nat
deriving DecidableEq, Repr

/-- Provider-assigned identifier for the n-th created label. -/
def freshLabelId (n : Nat) : String :=
  "Label_" ++ toString n

/-- Label creation call: the provider appends a label with the given
name and a fresh identifier and returns that identifier. -/
def createLabel (st : LabelState) (name : String) : String × LabelState :=
  let newId := freshLabelId st.nextId
  (newId, ⟨st.labels ++ [⟨some newId, some name⟩], st.nextId + 1⟩)

/-- Embedding of ensureLabelExists: list the labels, find the first one
whose name equals the requested name; if it has a truthy identifier
return it with the store unchanged, otherwise create a new label. -/
def ensureLabelExists (st : LabelState) (name : String) :
    String × LabelState :=
  match st.labels.find? fun l => l.name == some name with
  | some l =>
    match l.id with
    | some i => if i != "" then (i, st) else createLabel st name
    | none => createLabel st name
  | none => createLabel st name

/-- JSON body of the auth-status endpoint: the authenticated flag and
the optional echoed access token. -/
structure AuthCheckResponse where
  authenticated : Bool
  accessToken : Option String
deriving DecidableEq, Repr

/-- Embedding of the auth-status GET handler: read the access_token
cookie value; a missing or falsy (empty) value answers unauthenticated,
otherwise the response carries the flag and the raw token itself. -/
def authCheckGET (cookie : Option String) : AuthCheckResponse :=
  match cookie with
  | some t => if t != "" then ⟨true, some t⟩ else ⟨false, none⟩
  | none => ⟨false, none⟩

/-- One Set-Cookie emitted by the OAuth callback. -/
structure CookieSet where
  name : String
  value : String
  httpOnly : Bool
  maxAge : Nat
deriving DecidableEq, Repr

/-- Embedding of the cookie writes of the OAuth callback: the access
token for one hour and, when present, the refresh token for thirty days,
both HTTP-only. -/
def callbackCookies (accessToken : String) (refreshToken : Option String) :
    List CookieSet :=
  ⟨"access_token", accessToken, true, 3600⟩ ::
    (match refreshToken with
     | some r => [⟨"refresh_token", r, true, 30 * 24 * 60 * 60⟩]
     | none => [])

/-- Environment whose fetch call throws, for exercising the per-message
catch. -/
def envFail : MessageEnv :=
  ⟨.error "boom", none, none, fun _ => .ok "L1", .ok ()⟩

/-- Environment in which every provider call succeeds but both
classification backends fail, so the static fallback fires. -/
def envFallbackOk : MessageEnv :=
  ⟨.ok none, none, none, fun _ => .ok "L1", .ok ()⟩

/-- Payload whose parts hold a text/html part followed by a text/plain
part, both with data. -/
def plPlainHtml : GmailPayload :=
  .mk none none none (some
    [.mk none (some "text/html") (some ⟨some "hhh"⟩) none,
     .mk none (some "text/plain") (some ⟨some "ppp"⟩) none])

/-- Payload with one non-text part and no top-level body data. -/
def plNoText : GmailPayload :=
  .mk none (some "text/plain") none
    (some [.mk none (some "image/png") (some ⟨some "xx"⟩) none])

/-- When the Gemini tier is exhausted the Gemini step yields the static
fallback record. -/
theorem classifyGemini_exhausted (g : Option GeminiReply)
    (hg : geminiExhausts g) : classifyGemini g = fallbackResult := by
  cases g with
  | none => rfl
  | some r =>
    simp only [geminiExhausts] at hg
    simp only [classifyGemini]
    rw [if_neg]
    rintro ⟨hne, hmem⟩
    rcases hg with h | h
    · exact hne h
    · exact h hmem

/-- When the Claude tier is exhausted the multi-backend classifier is
the Gemini step. -/
theorem classifyEmail_exhausted_claude (c : Option ClaudeReply)
    (g : Option GeminiReply) (hc : claudeExhausts c) :
    classifyEmail c g = classifyGemini g := by
  cases c with
  | none => rfl
  | some r =>
    cases hrc : r.categoryField with
    | none => simp [classifyEmail, hrc]
    | some cc =>
      simp only [claudeExhausts, hrc] at hc
      simp only [classifyEmail, hrc]
      rw [if_neg]
      rintro ⟨hne, hmem⟩
      rcases hc with h | h
      · exact hne h
      · exact h hmem

/-- Category returned by the multi-backend classifier is always a
member of the category set. -/
theorem classify_category_mem (c : Option ClaudeReply)
    (g : Option GeminiReply) :
    (classifyEmail c g).category ∈ validCategories := by
  have hg : (classifyGemini g).category ∈ validCategories := by
    cases g with
    | none => decide
    | some r =>
      simp only [classifyGemini]
      split
      · next h => exact h.2
      · decide
  cases c with
  | none => exact hg
  | some r =>
    cases hrc : r.categoryField with
    | none => simpa [classifyEmail, hrc] using hg
    | some cc =>
      simp only [classifyEmail, hrc]
      split
      · next h => exact h.2
      · exact hg

/-- C1: when the Claude reply carries no valid category (including the
empty string) and the Gemini reply carries no valid category either, so
every configured tier is exhausted, the multi-backend classifier returns
the static default category Other tagged fallback with zero tokens and
zero cost. -/
theorem c1_fallback_outcome (claude : Option ClaudeReply)
    (gemini : Option GeminiReply) (hc : claudeExhausts claude)
    (hg : geminiExhausts gemini) :
    classifyEmail claude gemini =
      { category := "Other", model := "fallback", tokens := 0, cost := 0 } := by
  rw [classifyEmail_exhausted_claude claude gemini hc]
  exact classifyGemini_exhausted gemini hg

/-- C1 witness: a Claude reply with a category outside the set and a
Gemini reply with no text exhaust both tiers and hit the fallback. -/
theorem c1_witness :
    classifyEmail (some ⟨some "Banana", 1, 2⟩) (some ⟨none, none⟩) =
      { category := "Other", model := "fallback", tokens := 0, cost := 0 } :=
  c1_fallback_outcome (some ⟨some "Banana", 1, 2⟩) (some ⟨none, none⟩)
    (Or.inr (by decide)) (Or.inl rfl)

/-- C7 counterexample: a valid reply from the secondary (Claude) tier is
tagged with the literal string anthropic, not secondary-model, and a
valid reply from the primary (Gemini) tier is tagged gemini, not
primary-model. -/
theorem c7_counterexample :
    (classifyEmail (some ⟨some "Work", 10, 5⟩) none).model = "anthropic" ∧
    (classifyEmail (some ⟨some "Work", 10, 5⟩) none).model ≠ "secondary-model" ∧
    (classifyEmail none (some ⟨some "Work", some 3⟩)).model = "gemini" ∧
    (classifyEmail none (some ⟨some "Work", some 3⟩)).model ≠ "primary-model" := by
  refine ⟨by decide, by decide, by decide, by decide⟩

/-- C7 amended: a classifier reply equal to a valid Category string is
returned exactly, tagged with the producing backend: the literal tag
anthropic for the secondary (Claude) tier, the literal tag gemini for
the primary (Gemini) tier, with the usage and cost of that tier. -/
theorem c7_amended_tags (claude : Option ClaudeReply)
    (gemini : Option GeminiReply) :
    (∀ r c, claude = some r → r.categoryField = some c → c ≠ "" →
        c ∈ validCategories →
        classifyEmail claude gemini =
          { category := c, model := "anthropic",
            tokens := r.inputTokens + r.outputTokens,
            cost := ((r.inputTokens : ℚ) * (8 / 10 : ℚ)) / 1000000 +
                    ((r.outputTokens : ℚ) * 4) / 1000000 }) ∧
    (∀ g, claudeExhausts claude → gemini = some g →
        (g.text.map jsTrim).getD "" ≠ "" →
        (g.text.map jsTrim).getD "" ∈ validCategories →
        classifyEmail claude gemini =
          { category := (g.text.map jsTrim).getD "",
            model := "gemini",
            tokens := g.totalTokenCount.getD 0,
            cost := (g.totalTokenCount.getD 0 : ℚ) * (5 / 4 : ℚ) }) := by
  constructor
  · rintro r c rfl hrc hne hmem
    simp [classifyEmail, hrc, if_pos (And.intro hne hmem)]
  · rintro g hc rfl hne hmem
    rw [classifyEmail_exhausted_claude _ _ hc]
    simp [classifyGemini, if_pos (And.intro hne hmem)]

/-- C7 witness: the amended tagging evaluated at one valid Claude reply
and one valid (whitespace-padded) Gemini reply. -/
theorem c7_witness :
    classifyEmail (some ⟨some "Work", 10, 5⟩) none =
      { category := "Work", model := "anthropic", tokens := 15,
        cost := ((10 : ℚ) * (8 / 10 : ℚ)) / 1000000 +
                ((5 : ℚ) * 4) / 1000000 } ∧
    classifyEmail none (some ⟨some " Sales ", some 8⟩) =
      { category := "Sales", model := "gemini", tokens := 8,
        cost := (8 : ℚ) * (5 / 4 : ℚ) } := by
  constructor
  · exact (c7_amended_tags (some ⟨some "Work", 10, 5⟩) none).1
      ⟨some "Work", 10, 5⟩ "Work" rfl rfl (by decide) (by decide)
  · exact (c7_amended_tags none (some ⟨some " Sales ", some 8⟩)).2
      ⟨some " Sales ", some 8⟩ trivial rfl (by decide) (by decide)

/-- C2 counterexample: with three invalid (non-category) replies the
single-backend classifier makes three calls, performing its two retries
with no delay between any attempts, so the fixed delay promised between
attempts does not occur for invalid replies. -/
theorem c2_counterexample :
    (classifyEmailSingle fun _ => GeminiAttempt.reply (some "Invalid")).calls
        = 3 ∧
    (classifyEmailSingle fun _ => GeminiAttempt.reply (some "Invalid")).delays
        = [false, false] ∧
    (classifyEmailSingle fun _ => GeminiAttempt.reply (some "Invalid")).category
        = "Personal" := by
  refine ⟨by decide, by decide, by decide⟩

/-- C2 amended: when each of the three attempts is invalid or fails in
transport, the single-backend classifier calls the backend exactly three
times (two retries) and returns the static default Personal, and the
fixed delay is awaited before a retry exactly when the preceding attempt
was a transport failure: invalid replies retry immediately. -/
theorem c2_amended_retry (os : Nat → GeminiAttempt)
    (h0 : attemptValid (os 0) = false) (h1 : attemptValid (os 1) = false)
    (h2 : attemptValid (os 2) = false) :
    (classifyEmailSingle os).category = "Personal" ∧
    (classifyEmailSingle os).calls = 3 ∧
    (classifyEmailSingle os).delays =
      [attemptIsFailure (os 0), attemptIsFailure (os 1)] := by
  have step : ∀ fuel retries calls delays,
      attemptValid (os calls) = false → retries ≤ 2 →
      singleLoop os (fuel + 1) retries calls delays =
        if retries + 1 > 2 then
          ⟨"Personal", calls + 1, delays.reverse⟩
        else
          singleLoop os fuel (retries + 1) (calls + 1)
            (attemptIsFailure (os calls) :: delays) := by
    intro fuel retries calls delays hk hr
    cases ho : os calls with
    | failure =>
      simp only [singleLoop, if_pos hr, ho, attemptIsFailure]
    | reply t =>
      simp only [attemptValid, ho] at hk
      simp only [singleLoop, if_pos hr, ho, attemptIsFailure, hk,
        Bool.false_eq_true, if_false]
  have e0 := step 2 0 0 [] h0 (by omega)
  have e1 := step 1 1 1 [attemptIsFailure (os 0)] h1 (by omega)
  have e2 := step 0 2 2
    [attemptIsFailure (os 1), attemptIsFailure (os 0)] h2 (by omega)
  simp only [show ¬(0 + 1 > 2) by omega, if_false] at e0
  simp only [show ¬(1 + 1 > 2) by omega, if_false] at e1
  simp only [show (2 + 1 > 2) = True by simp, if_true] at e2
  unfold classifyEmailSingle
  rw [e0, e1, e2]
  simp

/-- C2 witness: three transport failures exhaust the attempts, return
Personal after three calls, and await the delay after each of the two
failed attempts that are retried. -/
theorem c2_witness :
    (classifyEmailSingle fun _ => GeminiAttempt.failure).category
        = "Personal" ∧
    (classifyEmailSingle fun _ => GeminiAttempt.failure).calls = 3 ∧
    (classifyEmailSingle fun _ => GeminiAttempt.failure).delays =
      [attemptIsFailure GeminiAttempt.failure,
       attemptIsFailure GeminiAttempt.failure] :=
  c2_amended_retry (fun _ => GeminiAttempt.failure) rfl rfl rfl

/-- C3 counterexample: the single-backend api/gmail route passes
maxResults 2, so an account with 25 unread messages has exactly 2
listed, not 10. -/
theorem c3_counterexample :
    (listUnreadSingle (List.replicate 25 "m")).length = 2 ∧
    (listUnreadSingle (List.replicate 25 "m")).length ≠ 10 := by
  refine ⟨by decide, by decide⟩

/-- C3 amended: the multi-backend route lists at most MAX_EMAILS = 10
matching messages and processes each listed one, so 25 unread messages
yield exactly 10 listed and 10 processed; the single-backend route
variant lists at most 2. -/
theorem c3_amended_batch (dec htmlLib : String → String)
    (envs : String → MessageEnv) (unread : List String)
    (h : unread.length = 25) :
    (listUnreadMulti unread).length = 10 ∧
    (processBatch dec htmlLib envs (listUnreadMulti unread)).length = 10 ∧
    ∀ u2 : List String, (listUnreadSingle u2).length ≤ 2 := by
  refine ⟨?_, ?_, ?_⟩
  · simp [listUnreadMulti, MAX_EMAILS, h]
  · simp [processBatch, listUnreadMulti, MAX_EMAILS, h]
  · intro u2
    exact List.length_take_le 2 u2

/-- C3 witness: the amended batch bound evaluated on a concrete list of
25 identifiers. -/
theorem c3_witness :
    (listUnreadMulti (List.replicate 25 "x")).length = 10 ∧
    (processBatch (fun s => s) (fun s => s) (fun _ => envFail)
      (listUnreadMulti (List.replicate 25 "x"))).length = 10 :=
  ⟨(c3_amended_batch (fun s => s) (fun s => s) (fun _ => envFail)
      (List.replicate 25 "x") (by simp)).1,
   (c3_amended_batch (fun s => s) (fun s => s) (fun _ => envFail)
      (List.replicate 25 "x") (by simp)).2.1⟩

/-- C4: the batch produces one result per listed message in listing
order, the result at each position is the per-message processing of that
message alone (so one failing message cannot affect any other), and a
pipeline that throws at any fallible step yields the failure record
carrying the thrown error message. -/
theorem c4_per_message_boundary (dec htmlLib : String → String)
    (envs : String → MessageEnv) (ids : List String) :
    (processBatch dec htmlLib envs ids).length = ids.length ∧
    (∀ i (hi : i < ids.length)
        (hi2 : i < (processBatch dec htmlLib envs ids).length),
        (processBatch dec htmlLib envs ids).get ⟨i, hi2⟩ =
          processSingleEmail dec htmlLib (envs (ids.get ⟨i, hi⟩))
            (ids.get ⟨i, hi⟩)) ∧
    (∀ env msgId e, pipelineRaises env e →
        processSingleEmail dec htmlLib env msgId = failedResult msgId e) := by
  refine ⟨by simp [processBatch], ?_, ?_⟩
  · intro i hi hi2
    simp [processBatch]
  · rintro env msgId e (hf | ⟨pl, hok, herr⟩ | ⟨pl, lid, hok, hlid, hmod⟩)
    · simp [processSingleEmail, runPipeline, hf, Bind.bind, Except.bind]
    · simp [processSingleEmail, runPipeline, hok, herr, Bind.bind,
        Except.bind]
    · simp [processSingleEmail, runPipeline, hok, hlid, hmod, Bind.bind,
        Except.bind]

/-- C4 witness: a two-message batch where the first message pipeline
throws at fetch: the batch is position-wise per-message processing and
the thrown error is converted into the failure record. -/
theorem c4_witness :
    (processBatch (fun s => s) (fun s => s) (fun _ => envFail)
        ["a", "b"]).length = 2 ∧
    (processBatch (fun s => s) (fun s => s) (fun _ => envFail)
        ["a", "b"]).get ⟨0, by decide⟩ =
      processSingleEmail (fun s => s) (fun s => s) envFail "a" ∧
    processSingleEmail (fun s => s) (fun s => s) envFail "x" =
      failedResult "x" "boom" :=
  ⟨(c4_per_message_boundary (fun s => s) (fun s => s) (fun _ => envFail)
      ["a", "b"]).1,
   (c4_per_message_boundary (fun s => s) (fun s => s) (fun _ => envFail)
      ["a", "b"]).2.1 0 (by decide) (by decide),
   (c4_per_message_boundary (fun s => s) (fun s => s) (fun _ => envFail)
      ["a", "b"]).2.2 envFail "x" "boom" (Or.inl rfl)⟩

/-- Success results of the message pipeline carry the classifier
category, the labeled flag set, the model, token and cost fields set to
the classifier figures, and no error. -/
theorem runPipeline_ok_fields (dec htmlLib : String → String)
    (env : MessageEnv) (msgId : String) (d : EmailData)
    (h : runPipeline dec htmlLib env msgId = .ok d) :
    d.category = (classifyEmail env.claude env.gemini).category ∧
    d.labeled = true ∧
    d.model = some (classifyEmail env.claude env.gemini).model ∧
    d.tokens = some (classifyEmail env.claude env.gemini).tokens ∧
    d.cost = some (classifyEmail env.claude env.gemini).cost ∧
    d.error = none := by
  unfold runPipeline at h
  cases hfe : env.fetch with
  | error e =>
    rw [hfe] at h
    simp [Bind.bind, Except.bind] at h
  | ok pl =>
    rw [hfe] at h
    simp only [Bind.bind, Except.bind] at h
    cases hl : env.ensureLabel (classifyEmail env.claude env.gemini).category
      with
    | error e2 => rw [hl] at h; simp at h
    | ok lid =>
      rw [hl] at h
      cases hm : env.modify with
      | error e3 => rw [hm] at h; simp at h
      | ok u =>
        rw [hm] at h
        simp only [pure, Except.pure, Except.ok.injEq] at h
        subst h
        exact ⟨rfl, rfl, rfl, rfl, rfl, rfl⟩

/-- C5 counterexample: a message whose backends both fail but whose
provider calls all succeed is a success result produced by the static
fallback, and its token and cost fields are nevertheless present (with
value 0), so presence of token/cost does not imply a paid backend. -/
theorem c5_counterexample :
    (processSingleEmail (fun s => s) (fun s => s) envFallbackOk
        "m1").labeled = true ∧
    (processSingleEmail (fun s => s) (fun s => s) envFallbackOk
        "m1").model = some "fallback" ∧
    (processSingleEmail (fun s => s) (fun s => s) envFallbackOk
        "m1").tokens = some 0 ∧
    (processSingleEmail (fun s => s) (fun s => s) envFallbackOk
        "m1").cost = some 0 :=
  ⟨rfl, rfl, rfl, rfl⟩

/-- C5 amended: every per-message result has a category that is a valid
Category string or the literal Error; its labeled flag is false exactly
when an error message is present; and its model, token and cost fields
are present exactly when it is a success — including fallback successes,
where tokens and cost are present with value 0. -/
theorem c5_amended_invariants (dec htmlLib : String → String)
    (env : MessageEnv) (msgId : String) :
    ((processSingleEmail dec htmlLib env msgId).category ∈ validCategories ∨
      (processSingleEmail dec htmlLib env msgId).category = "Error") ∧
    ((processSingleEmail dec htmlLib env msgId).labeled = false ↔
      (processSingleEmail dec htmlLib env msgId).error ≠ none) ∧
    ((processSingleEmail dec htmlLib env msgId).tokens ≠ none ↔
      (processSingleEmail dec htmlLib env msgId).labeled = true) ∧
    ((processSingleEmail dec htmlLib env msgId).cost ≠ none ↔
      (processSingleEmail dec htmlLib env msgId).labeled = true) ∧
    ((processSingleEmail dec htmlLib env msgId).model ≠ none ↔
      (processSingleEmail dec htmlLib env msgId).labeled = true) := by
  unfold processSingleEmail
  cases hr : runPipeline dec htmlLib env msgId with
  | error e => simp [failedResult]
  | ok d =>
    obtain ⟨hcat, hlab, hmod, htok, hcost, herr⟩ :=
      runPipeline_ok_fields dec htmlLib env msgId d hr
    rw [hcat, hlab, hmod, htok, hcost, herr]
    simp [classify_category_mem env.claude env.gemini]

/-- When the first text/plain part of a parts list carries truthy data,
the data-guarded scan of the source finds exactly that part. -/
theorem find?_plainWithData_of_isPlain (ps : List GmailPayload)
    (p : GmailPayload) (hf : ps.find? isPlainPart = some p)
    (hd : hasTruthyData p = true) :
    ps.find? plainWithData = some p := by
  induction ps with
  | nil => simp at hf
  | cons q qs ih =>
    by_cases hq : isPlainPart q = true
    · rw [List.find?_cons_of_pos qs hq] at hf
      have hqp : q = p := by injection hf
      subst hqp
      have hpq : plainWithData q = true := by
        simp [plainWithData, hq, hd]
      exact List.find?_cons_of_pos qs hpq
    · have hq2 : ¬ plainWithData q = true := by
        simp only [plainWithData, Bool.and_eq_true]
        rintro ⟨h1, _⟩
        exact hq h1
      rw [List.find?_cons_of_neg qs hq] at hf
      rw [List.find?_cons_of_neg qs hq2]
      exact ih hf

/-- C6: when the parts of a payload contain a text/plain part, the first
such part carrying base64 data is decoded and returned verbatim — the
decoder output with no further transformation — regardless of any
sibling text/html parts. -/
theorem c6_plain_verbatim (dec htmlLib : String → String)
    (pl : GmailPayload) (ps : List GmailPayload) (p : GmailPayload)
    (d : String) (hparts : pl.parts = some ps)
    (hfind : ps.find? isPlainPart = some p)
    (hdata : partData p = some d) (hne : d ≠ "") :
    extractEmailBody dec htmlLib (some pl) = dec d := by
  have htr : hasTruthyData p = true := by
    simp [hasTruthyData, hdata, hne]
  have h2 := find?_plainWithData_of_isPlain ps p hfind htr
  simp [extractEmailBody, hparts, h2, hdata]

/-- C6 witness: a payload whose parts are a text/html part followed by a
text/plain part returns the decoded plain data, with the decoder output
untouched. -/
theorem c6_witness :
    extractEmailBody (fun s => String.append "DEC:" s) (fun s => s)
      (some plPlainHtml) = "DEC:ppp" :=
  c6_plain_verbatim (fun s => String.append "DEC:" s) (fun s => s)
    plPlainHtml
    [.mk none (some "text/html") (some ⟨some "hhh"⟩) none,
     .mk none (some "text/plain") (some ⟨some "ppp"⟩) none]
    (.mk none (some "text/plain") (some ⟨some "ppp"⟩) none)
    "ppp" rfl rfl rfl (by decide)

/-- C8: against a label store that already holds a label whose name
equals the requested name exactly (with a truthy identifier, as every
provider label has), ensureLabelExists returns that identifier and
leaves the store unchanged, and a second call returns the same
identifier again without creating any duplicate. -/
theorem c8_idempotent (st : LabelState) (name : String) (l : GmailLabel)
    (i : String)
    (hf : st.labels.find? (fun l2 => l2.name == some name) = some l)
    (hid : l.id = some i) (hne : i ≠ "") :
    ensureLabelExists st name = (i, st) ∧
    ensureLabelExists (ensureLabelExists st name).2 name = (i, st) := by
  have h1 : ensureLabelExists st name = (i, st) := by
    simp [ensureLabelExists, hf, hid, hne]
  refine ⟨h1, ?_⟩
  rw [h1]
  exact h1

/-- C8 witness: a store already holding the Work label answers its
identifier twice with the store unchanged. -/
theorem c8_witness :
    ensureLabelExists ⟨[⟨some "L7", some "Work"⟩], 0⟩ "Work" =
      ("L7", ⟨[⟨some "L7", some "Work"⟩], 0⟩) ∧
    ensureLabelExists
        (ensureLabelExists ⟨[⟨some "L7", some "Work"⟩], 0⟩ "Work").2
        "Work" = ("L7", ⟨[⟨some "L7", some "Work"⟩], 0⟩) :=
  c8_idempotent ⟨[⟨some "L7", some "Work"⟩], 0⟩ "Work"
    ⟨some "L7", some "Work"⟩ "L7" rfl rfl (by decide)

/-- Payloads whose single-part branch does not match produce the empty
string there. -/
theorem extractSinglePart_empty (dec htmlLib : String → String)
    (pl : GmailPayload) (h : singlePartMatches pl = false) :
    extractSinglePart dec htmlLib pl = "" := by
  unfold singlePartMatches at h
  unfold extractSinglePart
  cases hd : partData pl with
  | none => rfl
  | some d =>
    rw [hd] at h
    dsimp only at h ⊢
    cases hdd : (d != "") with
    | false => simp [hdd]
    | true =>
      cases hmp : (pl.mimeType == some "text/plain") with
      | true => rw [hdd, hmp] at h; simp at h
      | false =>
        cases hmh : (pl.mimeType == some "text/html") with
        | true => rw [hdd, hmp, hmh] at h; simp at h
        | false => simp [hdd, hmp, hmh]

/-- C9: body extraction is total and returns the empty string rather
than raising: an absent payload yields the empty string, and so does any
payload in which no part and no top-level body matches a text media type
with data. -/
theorem c9_extraction_total (dec htmlLib : String → String) :
    extractEmailBody dec htmlLib none = "" ∧
    ∀ pl, hasNoTextContent pl = true →
      extractEmailBody dec htmlLib (some pl) = "" := by
  refine ⟨rfl, fun pl h => ?_⟩
  rw [hasNoTextContent, Bool.and_eq_true] at h
  obtain ⟨hall, hsp⟩ := h
  have hsp2 : singlePartMatches pl = false := by
    cases hb : singlePartMatches pl with
    | false => rfl
    | true => rw [hb] at hsp; simp at hsp
  cases hp : pl.parts with
  | none =>
    simp only [extractEmailBody, hp]
    exact extractSinglePart_empty dec htmlLib pl hsp2
  | some ps =>
    rw [hp] at hall
    simp only [Option.getD_some, List.all_eq_true, Bool.and_eq_true] at hall
    have hfp : ps.find? plainWithData = none := by
      rw [List.find?_eq_none]
      intro x hx hcx
      rcases hall x hx with ⟨h1, _⟩
      rw [hcx] at h1
      exact absurd h1 (by simp)
    have hfh : ps.find? htmlWithData = none := by
      rw [List.find?_eq_none]
      intro x hx hcx
      rcases hall x hx with ⟨_, h2⟩
      rw [hcx] at h2
      exact absurd h2 (by simp)
    simp only [extractEmailBody, hp, hfp, hfh]
    exact extractSinglePart_empty dec htmlLib pl hsp2

/-- C9 witness: a payload with only an image part and no top-level body
data extracts to the empty string. -/
theorem c9_witness :
    extractEmailBody (fun s => s) (fun s => s) (some plNoText) = "" :=
  (c9_extraction_total (fun s => s) (fun s => s)).2 plNoText (by decide)

/-- C10 counterexample: a request carrying the access_token cookie with
the empty value is answered unauthenticated and without any echoed
token, so a present cookie does not always put the raw token in the
response body. -/
theorem c10_counterexample :
    (authCheckGET (some "")).accessToken = none ∧
    (authCheckGET (some "")).authenticated = false :=
  ⟨rfl, rfl⟩

/-- C10 amended: whenever the access_token cookie is present with a
nonempty value, the auth-status response carries the authenticated flag
together with the raw token value itself — even though the callback set
that cookie HTTP-only. -/
theorem c10_amended_token_echo (t : String) (rt : Option String)
    (h : t ≠ "") :
    authCheckGET (some t) = ⟨true, some t⟩ ∧
    ∀ c ∈ callbackCookies t rt, c.httpOnly = true := by
  constructor
  · simp [authCheckGET, h]
  · intro c hc
    cases rt with
    | none =>
      simp only [callbackCookies, List.mem_singleton] at hc
      subst hc
      rfl
    | some r =>
      simp only [callbackCookies, List.mem_cons, List.mem_singleton,
        List.not_mem_nil, or_false] at hc
      rcases hc with rfl | rfl
      · rfl
      · rfl

/-- C10 witness: the amended echo property at the token tok123 with no
refresh token. -/
theorem c10_witness :
    authCheckGET (some "tok123") = ⟨true, some "tok123"⟩ ∧
    ∀ c ∈ callbackCookies "tok123" none, c.httpOnly = true :=
  c10_amended_token_echo "tok123" none (by decide)
